import Mathlib

/-!
Shallow embedding of the request-routing and dispatch engine of the
`enzyme` web framework (source files `src/router.rs`, `src/endpoint.rs`,
`src/lib.rs`).

The path matcher, route table, router lookup and the dispatch pipeline are
translated from the Rust source.  External collaborators (the JSON
serializer/deserializer of `serde_json`, the context extractor of a concrete
application, the HTTP transport) are abstracted as explicit function
parameters, so every theorem quantifies over them.  Machine strings are
Lean `String`s, byte buffers are `List Nat`, HTTP status codes are `Nat`.
-/

/-- Byte buffers (`Vec<u8>` in the source). -/
abbrev Bytes := List Nat

/-- HTTP methods (`http_types::Method`, restricted to the constructors the
examples use; the embedding only needs decidable equality). -/
inductive Method where
  | get
  | post
  | put
  | delete
  | patch
  | head
  | options
deriving DecidableEq, Repr

/-- `Params` from `lib.rs`: `pub type Params = std::collections::HashMap<&'static str, String>`.
Modelled as an association list where `insert` conses to the front and
`find?` takes the most recent binding, which matches `HashMap` insert
(later `insert` of the same key overwrites) observationally. -/
def Params := List (String × String)

/-- `HashMap::insert`: a later insert of the same key shadows the earlier one. -/
def Params.insert (params : Params) (key value : String) : Params :=
  (key, value) :: params

/-- `HashMap::get`: the most recently inserted binding of the key. -/
def Params.find? (params : Params) (key : String) : Option String :=
  match params with
  | [] => none
  | (k, v) :: rest => if k = key then some v else Params.find? rest key

/-- The empty parameter map. -/
def Params.empty : Params := []

/-- `StaticSegment` (router.rs lines 10-13). -/
structure StaticSegment where
  value : String
  position : Nat
deriving DecidableEq, Repr

/-- `DynamicSegment` (router.rs lines 15-18). -/
structure DynamicSegment where
  name : String
  position : Nat
deriving DecidableEq, Repr

/-- `RawSegment` (router.rs lines 190-193). -/
structure RawSegment where
  value : String
  position : Nat
deriving DecidableEq, Repr

instance : Inhabited RawSegment := ⟨⟨"", 0⟩⟩

/-- `RawRoute` (router.rs lines 195-197). -/
structure RawRoute where
  raw_segments : List RawSegment
deriving DecidableEq, Repr

/-- `RawRoute::from_path` (router.rs lines 199-213): split the path on `/`,
skip the first segment, enumerate the rest with their indices. -/
def RawRoute.from_path (path : String) : RawRoute :=
  { raw_segments :=
      ((path.splitOn "/").drop 1).enum.map
        (fun p => { value := p.2, position := p.1 }) }

/-- The invariant `RawRoute::from_path` establishes on the raw segments it
produces (the `enumerate` in router.rs lines 204-209): the segment stored
at index `i` carries position `i`.  Claims about matching arbitrary raw
segment sequences assume it. -/
def RawRoute.aligned (raw_route : RawRoute) : Prop :=
  ∀ i, i < raw_route.raw_segments.length →
    (raw_route.raw_segments.getD i default).position = i

/-- `impl PartialEq<RawSegment> for StaticSegment` (router.rs lines 215-219):
positions and literal values must both agree (exact, case-sensitive
string comparison). -/
def StaticSegment.eqRaw (s : StaticSegment) (other : RawSegment) : Bool :=
  s.position == other.position && s.value == other.value

/-- `impl PartialEq<RawSegment> for DynamicSegment` (router.rs lines 221-225):
only the positions must agree; the raw value is unconstrained. -/
def DynamicSegment.eqRaw (d : DynamicSegment) (other : RawSegment) : Bool :=
  d.position == other.position

/-- An HTTP response (`http_types::Response` as used by the source: a status
code, a body byte buffer and a content type). -/
structure Response where
  status : Nat
  body : Bytes
  contentType : Option String
deriving DecidableEq, Repr

instance : Inhabited Response := ⟨⟨200, [], none⟩⟩

/-- `Response::new(code)`: empty body, no content type yet. -/
def Response.new (code : Nat) : Response :=
  { status := code, body := [], contentType := none }

/-- Modelled from the spec: `Response::set_body` lives in the external
`http_types` crate (excluded as a collaborator).  Section 6 of the design
states the outbound interface carries "a `Content-Type` header (JSON for
all Router-produced bodies)", so setting a body sets a JSON content type. -/
def Response.set_body (res : Response) (bytes : Bytes) : Response :=
  { res with body := bytes, contentType := some "application/json" }

/-- An incoming HTTP request (`http_types::Request` as used by the source):
method, URL path, the `Content-Length` header's values (absent or a list
of values, of which the source reads the first), and the outcome of
draining the body stream (`read_to_end`), which either yields the body
bytes or an I/O fault. -/
structure Request where
  method : Method
  path : String
  contentLength : Option (List String)
  bodyRead : Except String Bytes

/-- The type-erased handler stored in a route: `(Request, Params) ->
Future<Result<Response, io::Error>>` (endpoint.rs `AsyncResponse`),
with the future already awaited. -/
abbrev Handler := Request → Params → Except String Response

instance : Inhabited Handler := ⟨fun _ _ => .ok default⟩

/-- `Route` (router.rs lines 20-24): static segments, dynamic segments and
an optional type-erased handler. -/
structure Route where
  static_segments : List StaticSegment
  dynamic_segments : List DynamicSegment
  handler : Option Handler

/-- `paths_match` (router.rs lines 155-180): the raw segment count must equal
the route's static plus dynamic segment count, and every static and every
dynamic segment must agree with the raw segment indexed by its own
`position`.  The Rust folds `is_match && ...` are kept as folds.  (Rust
indexing `raw_segments[pos]` panics when out of range; the embedding
returns the default `RawSegment`; all theorems about routes assume the
data-model invariant that positions lie below the segment count, under
which the default is never consulted.) -/
def paths_match (route : Route) (raw_route : RawRoute) : Bool :=
  if raw_route.raw_segments.length ==
      route.static_segments.length + route.dynamic_segments.length then
    let static_matches :=
      route.static_segments.foldl
        (fun is_match static_segment =>
          is_match &&
            static_segment.eqRaw
              (raw_route.raw_segments.getD static_segment.position default))
        true
    let dynamic_matches :=
      route.dynamic_segments.foldl
        (fun is_match dynamic_segment =>
          is_match &&
            dynamic_segment.eqRaw
              (raw_route.raw_segments.getD dynamic_segment.position default))
        true
    static_matches && dynamic_matches
  else
    false

/-- The parameter map built in `Router::lookup` (router.rs lines 135-146):
fold over the dynamic segments, inserting under each segment's name the
raw segment value at the segment's position. -/
def Route.matchParams (route : Route) (raw_route : RawRoute) : Params :=
  route.dynamic_segments.foldl
    (fun params dynamic_segment =>
      params.insert dynamic_segment.name
        (raw_route.raw_segments.getD dynamic_segment.position default).value)
    Params.empty

/-- The data-model invariant on routes (spec section 3): every segment's
position lies below the route's total segment count. -/
def Route.wf (route : Route) : Prop :=
  (∀ s ∈ route.static_segments,
      s.position < route.static_segments.length + route.dynamic_segments.length) ∧
  (∀ d ∈ route.dynamic_segments,
      d.position < route.static_segments.length + route.dynamic_segments.length)

/-- A structured error (`crate::error::Error`, a module of this repository
not present under `src/`).  Modelled from the spec: section 3 defines
Error as "a structured value carrying an HTTP status code and a
serializable message payload"; the doc example in `lib.rs` constructs it
as `Error { code: StatusCode, msg: json!(...) }`.  The message payload
type is kept abstract. -/
structure Error (Msg : Type) where
  code : Nat
  msg : Msg

/-- `error_response` (endpoint.rs lines 64-71): serialize the message with
`serde_json::to_vec(&msg)?` — a serialization failure propagates as a
fault via `?` — and otherwise set the bytes as the body of a response
with the given status code. -/
def error_response {Msg : Type} (serialize : Msg → Except String Bytes)
    (msg : Msg) (code : Nat) : Except String Response :=
  match serialize msg with
  | .ok bytes => .ok ((Response.new code).set_body bytes)
  | .error e => .error e

/-- `success_response` (endpoint.rs lines 73-77): serialize the value with
`serde_json::to_vec(&msg)?` — a serialization failure propagates as a
fault via `?` — and otherwise set the bytes as the body of a response
with status 200 (`StatusCode::Ok`). -/
def success_response {Res : Type} (serialize : Res → Except String Bytes)
    (res : Res) : Except String Response :=
  match serialize res with
  | .ok bytes => .ok ((Response.new 200).set_body bytes)
  | .error e => .error e

/-- The body-presence flag of `Endpoint::new` (endpoint.rs lines 26-30, and
identically `Router::add`, router.rs lines 86-90):
`req.header(CONTENT_LENGTH).map(|values| values.first().map(|v| v.as_str() == "0")).flatten().unwrap_or(false)`.
Note the comparison: the flag is `true` exactly when the header is present
and its first value is the string `"0"`. -/
def has_body (contentLength : Option (List String)) : Bool :=
  (Option.join
    (contentLength.map
      (fun values => values.head?.map (fun value => value == "0")))).getD false

/-- `Endpoint::new` (endpoint.rs lines 14-61), the dispatch pipeline for one
user handler `f : Ctx → Req → Result<Res, Error>`.  The external
capabilities are passed explicitly: the context extractor
(`Ctx::from_parts`, awaited), the JSON deserializer for `Req`
(`serde_json::from_slice`, with errors rendered as their display string),
the JSON serializers for `Res`, for the error-message payload and for
plain strings (`serde_json::to_vec`), and `Req`'s `Default` value.
Order follows the source: compute `has_body`, drain the body
(`read_to_end(...).await?`, an I/O fault propagates), extract the
context, then parse the body if `has_body` (a parse failure yields a
400 response carrying the parser's message), else use the default, then
run the handler and serialize its result.  The Rust code parses into
`req` and then falls through to one handler call; the embedding
duplicates that final call in both branches of the `if`. -/
def Endpoint.new {Req Res Ctx Msg : Type}
    (from_parts : Request → Params → Except (Error Msg) Ctx)
    (f : Ctx → Req → Except (Error Msg) Res)
    (reqDefault : Req)
    (deserialize : Bytes → Except String Req)
    (serializeRes : Res → Except String Bytes)
    (serializeMsg : Msg → Except String Bytes)
    (serializeStr : String → Except String Bytes)
    (req : Request) (params : Params) : Except String Response :=
  let hb := has_body req.contentLength
  match req.bodyRead with
  | .error ioFault => .error ioFault
  | .ok body =>
    match from_parts req params with
    | .error e => error_response serializeMsg e.msg e.code
    | .ok context =>
      if hb then
        match deserialize body with
        | .error e => error_response serializeStr e 400
        | .ok r =>
          match f context r with
          | .ok res => success_response serializeRes res
          | .error e => error_response serializeMsg e.msg e.code
      else
        match f context reqDefault with
        | .ok res => success_response serializeRes res
        | .error e => error_response serializeMsg e.msg e.code

/-- `Router` (router.rs lines 26-28): a table from methods to ordered route
lists.  `HashMap<Method, Vec<Route>>` is modelled as an association list
with at most one entry per method; only `get`/`entry` semantics are
used, so iteration order is irrelevant. -/
structure Router where
  table : List (Method × List Route)

/-- `Router::new` (router.rs lines 60-64). -/
def Router.new : Router := { table := [] }

/-- `HashMap::get` on the table. -/
def tableGet (table : List (Method × List Route)) (m : Method) :
    Option (List Route) :=
  match table with
  | [] => none
  | (m', routes) :: rest => if m' = m then some routes else tableGet rest m

/-- `table.entry(method).or_insert_with(Vec::new)` followed by
`entry.push(route)`: append to the method's bucket, creating it when
absent. -/
def tableAppend (table : List (Method × List Route)) (m : Method)
    (route : Route) : List (Method × List Route) :=
  match table with
  | [] => [(m, [route])]
  | (m', routes) :: rest =>
    if m' = m then (m', routes ++ [route]) :: rest
    else (m', routes) :: tableAppend rest m route

/-- The method's bucket of the router. -/
def Router.bucket (router : Router) (m : Method) : Option (List Route) :=
  tableGet router.table m

/-- `Router::add` (router.rs lines 66-117): build the type-erased handler for
the endpoint, store it in the route (`route.handler = Some(handler)`) and
push the route onto the method's bucket.  The handler built inline by
`Router::add` repeats the body/endpoint logic embedded as
`Endpoint.new`; the embedding takes the already-built uniform handler. -/
def Router.add (router : Router) (method : Method) (route : Route)
    (handler : Handler) : Router :=
  { table := tableAppend router.table method { route with handler := some handler } }

/-- `not_found` (router.rs lines 182-188): status 404 (`StatusCode::NotFound`)
and body `serde_json::to_vec(&json!("not found")).unwrap()`.  The JSON
encoding of a string value is the abstract `serializeJsonStr`
(total: `to_vec` of a `serde_json::Value` string cannot fail, hence the
`unwrap`). -/
def not_found (serializeJsonStr : String → Bytes) : Response :=
  (Response.new 404).set_body (serializeJsonStr "not found")

/-- The route-resolution part of `Router::lookup` (router.rs lines 123-147):
look up the method's bucket, take the first registered route whose
pattern matches (`iter().filter(...).nth(0)`), and build its parameter
map. -/
def Router.resolve (router : Router) (method : Method) (raw_route : RawRoute) :
    Option (Route × Params) :=
  match router.bucket method with
  | none => none
  | some routes =>
    match (routes.filter (fun route => paths_match route raw_route)).head? with
    | none => none
    | some route => some (route, route.matchParams raw_route)

/-- `Router::lookup` (router.rs lines 119-152): resolve the request's method
and path; with no bucket or no matching route answer `not_found`;
otherwise invoke the stored handler (`route.handler.as_ref().unwrap()`,
modelled with `Option.get!`) with the request and the captured params. -/
def Router.lookup (serializeJsonStr : String → Bytes) (router : Router)
    (req : Request) : Except String Response :=
  match router.resolve req.method (RawRoute.from_path req.path) with
  | none => .ok (not_found serializeJsonStr)
  | some (route, params) => route.handler.get! req params

/-- The compiled route of `route!(/"users"/id)` from the spec's concrete
scenario 1: one static segment `users` at position 0 and one dynamic
segment `id` at position 1, no handler yet. -/
def usersIdRoute : Route :=
  { static_segments := [{ value := "users", position := 0 }],
    dynamic_segments := [{ name := "id", position := 1 }],
    handler := none }

/-- A concrete context extractor that always succeeds (like the `Ctx = ()`
extractors of the examples). -/
def exCtxOk : Request → Params → Except (Error String) Unit :=
  fun _ _ => .ok ()

/-- A concrete handler echoing its request value. -/
def exHandlerEcho : Unit → Nat → Except (Error String) Nat :=
  fun _ r => .ok r

/-- A concrete serializer for `Nat` results. -/
def exSerNat : Nat → Except String Bytes := fun n => .ok [n]

/-- A concrete serializer for string payloads. -/
def exSerStr : String → Except String Bytes := fun s => .ok [s.length]

/-- A concrete deserializer that always fails. -/
def exDeserFail : Bytes → Except String Nat := fun _ => .error "unused"

/-- A concrete request without a `Content-Length` header. -/
def exReqNoCl : Request :=
  { method := .get, path := "/users/42", contentLength := none,
    bodyRead := .ok [123] }

/-! ## Helper lemmas -/

theorem foldl_and_eq_all {α : Type} (p : α → Bool) :
    ∀ (l : List α) (b : Bool),
      l.foldl (fun is_match x => is_match && p x) b = (b && l.all p) := by
  intro l
  induction l with
  | nil => simp
  | cons x xs ih =>
    intro b
    simp [List.foldl_cons, ih, Bool.and_assoc]

theorem paths_match_eq (route : Route) (raw_route : RawRoute) :
    paths_match route raw_route =
      ((raw_route.raw_segments.length ==
          route.static_segments.length + route.dynamic_segments.length) &&
       route.static_segments.all
         (fun s => s.eqRaw (raw_route.raw_segments.getD s.position default)) &&
       route.dynamic_segments.all
         (fun d => d.eqRaw (raw_route.raw_segments.getD d.position default))) := by
  by_cases h : raw_route.raw_segments.length =
      route.static_segments.length + route.dynamic_segments.length
  · simp [paths_match, h, foldl_and_eq_all, Bool.and_assoc]
  · simp [paths_match, h]

theorem from_path_length (path : String) :
    (RawRoute.from_path path).raw_segments.length =
      ((path.splitOn "/").drop 1).length := by
  simp [RawRoute.from_path]

theorem from_path_getD (path : String) (i : Nat)
    (h : i < (RawRoute.from_path path).raw_segments.length) :
    (RawRoute.from_path path).raw_segments.getD i default =
      { value := ((path.splitOn "/").drop 1).getD i "", position := i } := by
  have h' : i < ((path.splitOn "/").drop 1).length := by
    simpa [from_path_length] using h
  rw [List.getD_eq_getElem _ _ h, List.getD_eq_getElem _ _ h']
  simp [RawRoute.from_path, List.getElem_map, List.getElem_enum]

theorem from_path_aligned (path : String) : (RawRoute.from_path path).aligned := by
  intro i h
  rw [from_path_getD path i h]

theorem paths_match_aligned_iff (route : Route) (raw_route : RawRoute)
    (hwf : route.wf) (hal : raw_route.aligned) :
    paths_match route raw_route = true ↔
      (raw_route.raw_segments.length =
          route.static_segments.length + route.dynamic_segments.length ∧
       ∀ s ∈ route.static_segments,
         (raw_route.raw_segments.getD s.position default).value = s.value) := by
  obtain ⟨hstat, hdyn⟩ := hwf
  rw [paths_match_eq]
  simp only [Bool.and_eq_true, beq_iff_eq, List.all_eq_true]
  constructor
  · rintro ⟨⟨hlen, hs⟩, _⟩
    refine ⟨hlen, fun s hsmem => ?_⟩
    have hv := hs s hsmem
    simp only [StaticSegment.eqRaw, Bool.and_eq_true, beq_iff_eq] at hv
    exact hv.2.symm
  · rintro ⟨hlen, hv⟩
    refine ⟨⟨hlen, fun s hsmem => ?_⟩, fun d hdmem => ?_⟩
    · have hpos : s.position < raw_route.raw_segments.length := by
        rw [hlen]; exact hstat s hsmem
      simp only [StaticSegment.eqRaw, Bool.and_eq_true, beq_iff_eq]
      exact ⟨(hal s.position hpos).symm, (hv s hsmem).symm⟩
    · have hpos : d.position < raw_route.raw_segments.length := by
        rw [hlen]; exact hdyn d hdmem
      simp only [DynamicSegment.eqRaw, beq_iff_eq]
      exact (hal d.position hpos).symm

theorem params_find_foldl_not_mem (val : DynamicSegment → String) :
    ∀ (l : List DynamicSegment) (acc : Params) (n : String),
      (∀ d ∈ l, d.name ≠ n) →
      Params.find? (l.foldl (fun ps d => ps.insert d.name (val d)) acc) n =
        Params.find? acc n := by
  intro l
  induction l with
  | nil => intro acc n _; rfl
  | cons x xs ih =>
    intro acc n h
    rw [List.foldl_cons,
      ih _ _ (fun d hd => h d (List.mem_cons_of_mem _ hd))]
    have hne : x.name ≠ n := h x (List.mem_cons_self _ _)
    simp [Params.insert, Params.find?, hne]

theorem params_find_foldl_mem (val : DynamicSegment → String) :
    ∀ (l : List DynamicSegment) (acc : Params) (d : DynamicSegment),
      d ∈ l → (l.map DynamicSegment.name).Nodup →
      Params.find? (l.foldl (fun ps d => ps.insert d.name (val d)) acc) d.name =
        some (val d) := by
  intro l
  induction l with
  | nil => intro _ d hd _; cases hd
  | cons x xs ih =>
    intro acc d hd hnodup
    rw [List.map_cons, List.nodup_cons] at hnodup
    obtain ⟨hx, hxs⟩ := hnodup
    rcases List.mem_cons.mp hd with rfl | hmem
    · rw [List.foldl_cons]
      have hne : ∀ d' ∈ xs, d'.name ≠ d.name := by
        intro d' hd' heq
        exact hx (heq ▸ List.mem_map_of_mem DynamicSegment.name hd')
      rw [params_find_foldl_not_mem val xs _ _ hne]
      simp [Params.insert, Params.find?]
    · rw [List.foldl_cons]
      exact ih _ d hmem hxs

theorem tableGet_tableAppend_self :
    ∀ (table : List (Method × List Route)) (m : Method) (route : Route),
      tableGet (tableAppend table m route) m =
        some ((tableGet table m).getD [] ++ [route]) := by
  intro table
  induction table with
  | nil => intro m route; simp [tableAppend, tableGet]
  | cons e rest ih =>
    intro m route
    obtain ⟨m', routes⟩ := e
    by_cases h : m' = m
    · subst h; simp [tableAppend, tableGet]
    · simp [tableAppend, tableGet, h, ih]

theorem resolve_of_first_match (router : Router) (m : Method)
    (raw_route : RawRoute) (routes pre post : List Route) (r : Route)
    (hb : router.bucket m = some routes)
    (hr : routes = pre ++ r :: post)
    (hmatch : paths_match r raw_route = true)
    (hpre : ∀ r' ∈ pre, paths_match r' raw_route = false) :
    router.resolve m raw_route = some (r, r.matchParams raw_route) := by
  unfold Router.resolve
  rw [hb, hr]
  dsimp only
  rw [List.filter_append]
  have hpre' : pre.filter (fun route => paths_match route raw_route) = [] :=
    List.filter_eq_nil_iff.mpr (fun a ha => by simp [hpre a ha])
  rw [hpre', List.filter_cons]
  simp [hmatch]

theorem resolve_none_of_no_match (router : Router) (m : Method)
    (raw_route : RawRoute)
    (h : router.bucket m = none ∨
         ∃ routes, router.bucket m = some routes ∧
           ∀ r ∈ routes, paths_match r raw_route = false) :
    router.resolve m raw_route = none := by
  unfold Router.resolve
  rcases h with h | ⟨routes, hb, hnone⟩
  · rw [h]
  · rw [hb]
    dsimp only
    have : routes.filter (fun route => paths_match route raw_route) = [] :=
      List.filter_eq_nil_iff.mpr (fun a ha => by simp [hnone a ha])
    rw [this]
    rfl

/-! ## Claims -/

/-- C10: for every incoming request whose `Content-Length` header is entirely
absent, the dispatch pipeline never attempts JSON deserialization of the
body (the outcome is independent of the deserializer) and invokes the user
handler with the request type's default value, even if the request
actually carries body bytes. -/
theorem content_length_absent_uses_default {Req Res Ctx Msg : Type}
    (from_parts : Request → Params → Except (Error Msg) Ctx)
    (f : Ctx → Req → Except (Error Msg) Res)
    (reqDefault : Req)
    (deserialize₁ deserialize₂ : Bytes → Except String Req)
    (serializeRes : Res → Except String Bytes)
    (serializeMsg : Msg → Except String Bytes)
    (serializeStr : String → Except String Bytes)
    (req : Request) (params : Params) (body : Bytes) (context : Ctx)
    (hcl : req.contentLength = none)
    (hread : req.bodyRead = .ok body)
    (hctx : from_parts req params = .ok context) :
    Endpoint.new from_parts f reqDefault deserialize₁ serializeRes
        serializeMsg serializeStr req params =
      (match f context reqDefault with
       | .ok res => success_response serializeRes res
       | .error e => error_response serializeMsg e.msg e.code) ∧
    Endpoint.new from_parts f reqDefault deserialize₁ serializeRes
        serializeMsg serializeStr req params =
      Endpoint.new from_parts f reqDefault deserialize₂ serializeRes
        serializeMsg serializeStr req params := by
  have hb : has_body req.contentLength = false := by rw [hcl]; rfl
  constructor <;> simp [Endpoint.new, hread, hctx, hb]

/-- C10 witness: a concrete `GET /users/42` request with no `Content-Length`
and body bytes on the wire; the pipeline ignores the (failing)
deserializer and runs the handler on the default value `7`. -/
theorem content_length_absent_uses_default_witness :
    Endpoint.new (fun (_ : Request) (_ : Params) => (Except.ok () : Except (Error String) Unit))
        (fun (_ : Unit) (r : Nat) => (Except.ok r : Except (Error String) Nat)) 7
        (fun _ => Except.error "unused")
        (fun n => Except.ok [n])
        (fun (m : String) => Except.ok [m.length])
        (fun s => Except.ok [s.length])
        { method := .get, path := "/users/42", contentLength := none,
          bodyRead := .ok [123] }
        Params.empty =
      Except.ok { status := 200, body := [7], contentType := some "application/json" } ∧
    Endpoint.new (fun (_ : Request) (_ : Params) => (Except.ok () : Except (Error String) Unit))
        (fun (_ : Unit) (r : Nat) => (Except.ok r : Except (Error String) Nat)) 7
        (fun _ => Except.error "unused")
        (fun n => Except.ok [n])
        (fun (m : String) => Except.ok [m.length])
        (fun s => Except.ok [s.length])
        { method := .get, path := "/users/42", contentLength := none,
          bodyRead := .ok [123] }
        Params.empty =
      Endpoint.new (fun (_ : Request) (_ : Params) => (Except.ok () : Except (Error String) Unit))
        (fun (_ : Unit) (r : Nat) => (Except.ok r : Except (Error String) Nat)) 7
        (fun _ => Except.ok 999)
        (fun n => Except.ok [n])
        (fun (m : String) => Except.ok [m.length])
        (fun s => Except.ok [s.length])
        { method := .get, path := "/users/42", contentLength := none,
          bodyRead := .ok [123] }
        Params.empty :=
  have h :=
    content_length_absent_uses_default
      (fun (_ : Request) (_ : Params) => (Except.ok () : Except (Error String) Unit))
      (fun (_ : Unit) (r : Nat) => (Except.ok r : Except (Error String) Nat)) 7
      (fun _ => Except.error "unused") (fun _ => Except.ok 999)
      (fun n => Except.ok [n]) (fun (m : String) => Except.ok [m.length])
      (fun s => Except.ok [s.length])
      { method := .get, path := "/users/42", contentLength := none,
        bodyRead := .ok [123] }
      Params.empty [123] () rfl rfl rfl
  ⟨h.1.trans rfl, h.2⟩

/-- C6: for every dispatched request, if the bound context extractor's
`from_parts` returns an Error, the pipeline returns a response whose
status and serialized message are those carried by that Error, and the
outcome is the same for every deserializer and every user handler —
neither body deserialization nor the handler is ever executed. -/
theorem context_failure_short_circuits {Req Res Ctx Msg : Type}
    (from_parts : Request → Params → Except (Error Msg) Ctx)
    (reqDefault : Req)
    (serializeRes : Res → Except String Bytes)
    (serializeMsg : Msg → Except String Bytes)
    (serializeStr : String → Except String Bytes)
    (req : Request) (params : Params) (body bs : Bytes) (e : Error Msg)
    (hread : req.bodyRead = .ok body)
    (hctx : from_parts req params = .error e)
    (hser : serializeMsg e.msg = .ok bs) :
    ∀ (deserialize : Bytes → Except String Req)
      (f : Ctx → Req → Except (Error Msg) Res),
      Endpoint.new from_parts f reqDefault deserialize serializeRes
          serializeMsg serializeStr req params =
        .ok { status := e.code, body := bs,
              contentType := some "application/json" } := by
  intro deserialize f
  simp [Endpoint.new, hread, hctx, error_response, hser, Response.new,
    Response.set_body]

/-- C6 witness: a concrete extractor failure with status 401 and message
`"missing auth header"`; for a failing deserializer and a succeeding
handler alike, the pipeline answers the extractor's error response. -/
theorem context_failure_short_circuits_witness :
    Endpoint.new
        (fun (_ : Request) (_ : Params) =>
          (Except.error { code := 401, msg := "missing auth header" } :
            Except (Error String) Unit))
        (fun (_ : Unit) (r : Nat) => (Except.ok r : Except (Error String) Nat)) 7
        (fun _ => Except.error "unused")
        (fun n => Except.ok [n])
        (fun (m : String) => Except.ok [m.length])
        (fun s => Except.ok [s.length])
        { method := .get, path := "/users/42", contentLength := some ["9"],
          bodyRead := .ok [1, 2, 3] }
        Params.empty =
      Except.ok { status := 401, body := ["missing auth header".length],
                  contentType := some "application/json" } :=
  context_failure_short_circuits
    (fun (_ : Request) (_ : Params) =>
      (Except.error { code := 401, msg := "missing auth header" } :
        Except (Error String) Unit))
    7 (fun n => Except.ok [n]) (fun (m : String) => Except.ok [m.length])
    (fun s => Except.ok [s.length])
    { method := .get, path := "/users/42", contentLength := some ["9"],
      bodyRead := .ok [1, 2, 3] }
    Params.empty [1, 2, 3] ["missing auth header".length]
    { code := 401, msg := "missing auth header" }
    rfl rfl rfl (fun _ => Except.error "unused") (fun _ r => Except.ok r)

/-- C7: for every dispatched request that the pipeline expects to carry a
body (its body-presence flag is set), if the body bytes cannot be
deserialized into the request type, the pipeline returns a response with
status 400 whose body is the serialized parser error message, and the
outcome is the same for every user handler — the handler is never
invoked. -/
theorem parse_failure_yields_400 {Req Res Ctx Msg : Type}
    (from_parts : Request → Params → Except (Error Msg) Ctx)
    (reqDefault : Req)
    (deserialize : Bytes → Except String Req)
    (serializeRes : Res → Except String Bytes)
    (serializeMsg : Msg → Except String Bytes)
    (serializeStr : String → Except String Bytes)
    (req : Request) (params : Params) (body bs : Bytes) (context : Ctx)
    (perr : String)
    (hread : req.bodyRead = .ok body)
    (hb : has_body req.contentLength = true)
    (hctx : from_parts req params = .ok context)
    (hde : deserialize body = .error perr)
    (hser : serializeStr perr = .ok bs) :
    ∀ (f : Ctx → Req → Except (Error Msg) Res),
      Endpoint.new from_parts f reqDefault deserialize serializeRes
          serializeMsg serializeStr req params =
        .ok { status := 400, body := bs,
              contentType := some "application/json" } := by
  intro f
  simp [Endpoint.new, hread, hctx, hb, hde, error_response, hser,
    Response.new, Response.set_body]

/-- C7 witness: a request whose body-presence flag is set and whose bytes
fail to parse; the pipeline answers 400 with the parser's message for a
handler that would have succeeded. -/
theorem parse_failure_yields_400_witness :
    Endpoint.new (fun (_ : Request) (_ : Params) => (Except.ok () : Except (Error String) Unit))
        (fun (_ : Unit) (r : Nat) => (Except.ok r : Except (Error String) Nat)) 7
        (fun _ => Except.error "invalid type: integer, expected a string")
        (fun n => Except.ok [n])
        (fun (m : String) => Except.ok [m.length])
        (fun s => Except.ok [s.length])
        { method := .post, path := "/items", contentLength := some ["0"],
          bodyRead := .ok [1] }
        Params.empty =
      Except.ok { status := 400,
                  body := ["invalid type: integer, expected a string".length],
                  contentType := some "application/json" } :=
  parse_failure_yields_400
    (fun (_ : Request) (_ : Params) => (Except.ok () : Except (Error String) Unit))
    7 (fun _ => Except.error "invalid type: integer, expected a string")
    (fun n => Except.ok [n]) (fun (m : String) => Except.ok [m.length])
    (fun s => Except.ok [s.length])
    { method := .post, path := "/items", contentLength := some ["0"],
      bodyRead := .ok [1] }
    Params.empty [1] ["invalid type: integer, expected a string".length]
    () "invalid type: integer, expected a string"
    rfl rfl rfl rfl rfl (fun _ r => Except.ok r)

/-- C1: evaluation of the pipeline at the claim's failing input.  For a
request with `Content-Length: 0` the body-presence flag computed by
`Endpoint::new` (and identically by `Router::add`) is `true`, so the
pipeline DOES attempt JSON deserialization of the (empty) body: with a
deserializer that fails the way `serde_json::from_slice` fails on empty
input, the result is a 400 parse-error response, not the invocation of
the handler on the request type's default value (which would have given
status 200 with body `[7]`).  This contradicts the claim, the spec, and
the crate's own documentation in `lib.rs` ("A `Content-Length` of 0 will
prevent deserialization of the body entirely"). -/
theorem content_length_zero_triggers_deserialization :
    has_body (some ["0"]) = true ∧
    Endpoint.new (fun (_ : Request) (_ : Params) => (Except.ok () : Except (Error String) Unit))
        (fun (_ : Unit) (r : Nat) => (Except.ok r : Except (Error String) Nat)) 7
        (fun _ => Except.error "EOF while parsing a value at line 1 column 0")
        (fun n => Except.ok [n])
        (fun (m : String) => Except.ok [m.length])
        (fun s => Except.ok [s.length])
        { method := .post, path := "/items", contentLength := some ["0"],
          bodyRead := .ok [] }
        Params.empty =
      Except.ok { status := 400,
                  body := ["EOF while parsing a value at line 1 column 0".length],
                  contentType := some "application/json" } ∧
    Endpoint.new (fun (_ : Request) (_ : Params) => (Except.ok () : Except (Error String) Unit))
        (fun (_ : Unit) (r : Nat) => (Except.ok r : Except (Error String) Nat)) 7
        (fun _ => Except.error "EOF while parsing a value at line 1 column 0")
        (fun n => Except.ok [n])
        (fun (m : String) => Except.ok [m.length])
        (fun s => Except.ok [s.length])
        { method := .post, path := "/items", contentLength := some ["0"],
          bodyRead := .ok [] }
        Params.empty ≠
      success_response (fun n => Except.ok [n]) 7 := by
  refine ⟨rfl, rfl, ?_⟩
  intro h
  simp [Endpoint.new, success_response, has_body, error_response,
    Response.new, Response.set_body] at h

/-- C3: route registration appends to the method bucket's ordered list, and
route resolution scans that list linearly in registration order and
returns the handler-carrying route and params of the first (i.e.
earliest-registered) route that matches — in particular, whenever a
route matches and every route registered before it fails to match, that
route is the one resolved. -/
theorem first_registered_route_wins (router : Router) (m : Method)
    (route : Route) (h : Handler) (raw_route : RawRoute)
    (routes pre post : List Route) (r : Route)
    (hb : router.bucket m = some routes)
    (hr : routes = pre ++ r :: post)
    (hmatch : paths_match r raw_route = true)
    (hpre : ∀ r' ∈ pre, paths_match r' raw_route = false) :
    (router.add m route h).bucket m =
      some ((router.bucket m).getD [] ++ [{ route with handler := some h }]) ∧
    router.resolve m raw_route = some (r, r.matchParams raw_route) :=
  ⟨tableGet_tableAppend_self router.table m _,
   resolve_of_first_match router m raw_route routes pre post r hb hr hmatch hpre⟩

/-- C3 witness: two routes for GET both matching `/foo`; resolution picks the
first-registered one, and adding a route appends it to the bucket. -/
theorem first_registered_route_wins_witness :
    (Router.add
        { table := [(Method.get,
            [{ static_segments := [{ value := "foo", position := 0 }],
               dynamic_segments := [], handler := some (fun _ _ => .ok default) },
             { static_segments := [],
               dynamic_segments := [{ name := "x", position := 0 }],
               handler := some (fun _ _ => .error "second") }])] }
        Method.get usersIdRoute (fun _ _ => .ok default)).bucket Method.get =
      some ((Router.bucket
        { table := [(Method.get,
            [{ static_segments := [{ value := "foo", position := 0 }],
               dynamic_segments := [], handler := some (fun _ _ => .ok default) },
             { static_segments := [],
               dynamic_segments := [{ name := "x", position := 0 }],
               handler := some (fun _ _ => .error "second") }])] }
        Method.get).getD [] ++
        [{ usersIdRoute with handler := some (fun _ _ => .ok default) }]) ∧
    Router.resolve
        { table := [(Method.get,
            [{ static_segments := [{ value := "foo", position := 0 }],
               dynamic_segments := [], handler := some (fun _ _ => .ok default) },
             { static_segments := [],
               dynamic_segments := [{ name := "x", position := 0 }],
               handler := some (fun _ _ => .error "second") }])] }
        Method.get { raw_segments := [{ value := "foo", position := 0 }] } =
      some ({ static_segments := [{ value := "foo", position := 0 }],
              dynamic_segments := [], handler := some (fun _ _ => .ok default) },
            Route.matchParams
              { static_segments := [{ value := "foo", position := 0 }],
                dynamic_segments := [], handler := some (fun _ _ => .ok default) }
              { raw_segments := [{ value := "foo", position := 0 }] }) :=
  first_registered_route_wins
    { table := [(Method.get,
        [{ static_segments := [{ value := "foo", position := 0 }],
           dynamic_segments := [], handler := some (fun _ _ => .ok default) },
         { static_segments := [],
           dynamic_segments := [{ name := "x", position := 0 }],
           handler := some (fun _ _ => .error "second") }])] }
    Method.get usersIdRoute (fun _ _ => .ok default)
    { raw_segments := [{ value := "foo", position := 0 }] }
    [{ static_segments := [{ value := "foo", position := 0 }],
       dynamic_segments := [], handler := some (fun _ _ => .ok default) },
     { static_segments := [],
       dynamic_segments := [{ name := "x", position := 0 }],
       handler := some (fun _ _ => .error "second") }]
    []
    [{ static_segments := [],
       dynamic_segments := [{ name := "x", position := 0 }],
       handler := some (fun _ _ => .error "second") }]
    { static_segments := [{ value := "foo", position := 0 }],
      dynamic_segments := [], handler := some (fun _ _ => .ok default) }
    rfl rfl (by decide) (by intro r' hr'; cases hr')

/-- C4: for every route satisfying the data-model position invariant and
every sequence of raw path segments (positions aligned with indices, as
`RawRoute::from_path` produces them — `from_path_aligned`), matching
succeeds if and only if the raw segment count equals the route's static
plus dynamic segment count AND every static segment's literal value
equals (exact, case-sensitive string comparison, no decoding) the raw
segment at its position; in particular a segment-count mismatch alone
makes the match fail. -/
theorem match_iff_count_and_statics (route : Route) (raw_route : RawRoute)
    (hwf : route.wf) (hal : raw_route.aligned) :
    paths_match route raw_route = true ↔
      (raw_route.raw_segments.length =
          route.static_segments.length + route.dynamic_segments.length ∧
       ∀ s ∈ route.static_segments,
         (raw_route.raw_segments.getD s.position default).value = s.value) :=
  paths_match_aligned_iff route raw_route hwf hal

/-- C4 witness: the `/users/{id}` route against the raw segments of
`/users/42`. -/
theorem match_iff_count_and_statics_witness :
    Route.wf usersIdRoute ∧
    RawRoute.aligned { raw_segments := [{ value := "users", position := 0 },
                                        { value := "42", position := 1 }] } ∧
    (paths_match usersIdRoute
        { raw_segments := [{ value := "users", position := 0 },
                           { value := "42", position := 1 }] } = true ↔
      (({ raw_segments := [{ value := "users", position := 0 },
                           { value := "42", position := 1 }] } :
            RawRoute).raw_segments.length =
          usersIdRoute.static_segments.length +
            usersIdRoute.dynamic_segments.length ∧
       ∀ s ∈ usersIdRoute.static_segments,
         (({ raw_segments := [{ value := "users", position := 0 },
                              { value := "42", position := 1 }] } :
               RawRoute).raw_segments.getD s.position default).value =
           s.value)) :=
  have hwf : Route.wf usersIdRoute := ⟨by decide, by decide⟩
  have hal : RawRoute.aligned
      { raw_segments := [{ value := "users", position := 0 },
                         { value := "42", position := 1 }] } := by
    intro i h
    have h2 : i < 2 := h
    interval_cases i <;> rfl
  ⟨hwf, hal,
   match_iff_count_and_statics usersIdRoute
     { raw_segments := [{ value := "users", position := 0 },
                        { value := "42", position := 1 }] } hwf hal⟩

/-- C5: for every route with dynamic segments satisfying the data-model
invariants (positions in range, capture names unique) and every aligned
raw segment sequence of the matching count whose static segments all
match, the route matches (every dynamic segment matches whatever raw
value sits at its position), and the resolved parameter map contains,
under each dynamic segment's declared name, exactly the raw segment
string at that position, with no transformation. -/
theorem dynamic_segments_capture (route : Route) (raw_route : RawRoute)
    (hwf : route.wf) (hal : raw_route.aligned)
    (hnodup : (route.dynamic_segments.map DynamicSegment.name).Nodup)
    (hlen : raw_route.raw_segments.length =
        route.static_segments.length + route.dynamic_segments.length)
    (hstatic : ∀ s ∈ route.static_segments,
        (raw_route.raw_segments.getD s.position default).value = s.value) :
    paths_match route raw_route = true ∧
    (∀ d ∈ route.dynamic_segments,
       d.eqRaw (raw_route.raw_segments.getD d.position default) = true) ∧
    (∀ d ∈ route.dynamic_segments,
       (route.matchParams raw_route).find? d.name =
         some (raw_route.raw_segments.getD d.position default).value) := by
  refine ⟨(paths_match_aligned_iff route raw_route hwf hal).mpr
      ⟨hlen, hstatic⟩, ?_, ?_⟩
  · intro d hd
    have hpos : d.position < raw_route.raw_segments.length := by
      rw [hlen]; exact hwf.2 d hd
    simp only [DynamicSegment.eqRaw, beq_iff_eq]
    exact (hal d.position hpos).symm
  · intro d hd
    unfold Route.matchParams
    exact params_find_foldl_mem _ _ _ _ hd hnodup

/-- C5 witness: the `/users/{id}` route against the raw segments of
`/users/42`; the captured parameter under `id` is exactly `42`. -/
theorem dynamic_segments_capture_witness :
    Route.wf usersIdRoute ∧
    paths_match usersIdRoute
      { raw_segments := [{ value := "users", position := 0 },
                         { value := "42", position := 1 }] } = true ∧
    (∀ d ∈ usersIdRoute.dynamic_segments,
       d.eqRaw (({ raw_segments := [{ value := "users", position := 0 },
                                    { value := "42", position := 1 }] } :
           RawRoute).raw_segments.getD d.position default) = true) ∧
    (∀ d ∈ usersIdRoute.dynamic_segments,
       (usersIdRoute.matchParams
           { raw_segments := [{ value := "users", position := 0 },
                              { value := "42", position := 1 }] }).find? d.name =
         some (({ raw_segments := [{ value := "users", position := 0 },
                                   { value := "42", position := 1 }] } :
             RawRoute).raw_segments.getD d.position default).value) :=
  have hwf : Route.wf usersIdRoute := ⟨by decide, by decide⟩
  have hal : RawRoute.aligned
      { raw_segments := [{ value := "users", position := 0 },
                         { value := "42", position := 1 }] } := by
    intro i h
    have h2 : i < 2 := h
    interval_cases i <;> rfl
  have h := dynamic_segments_capture usersIdRoute
    { raw_segments := [{ value := "users", position := 0 },
                       { value := "42", position := 1 }] }
    hwf hal (by decide) rfl (by decide)
  ⟨hwf, h⟩

/-- C9: for every incoming request whose method has no registered bucket, or
whose path matches no registered route of its method, dispatch returns a
response with status 404 whose body is the JSON serialization of the
literal string `"not found"`. -/
theorem unmatched_request_yields_404 (serializeJsonStr : String → Bytes)
    (router : Router) (req : Request)
    (h : router.bucket req.method = none ∨
         ∃ routes, router.bucket req.method = some routes ∧
           ∀ r ∈ routes, paths_match r (RawRoute.from_path req.path) = false) :
    Router.lookup serializeJsonStr router req =
      .ok { status := 404, body := serializeJsonStr "not found",
            contentType := some "application/json" } := by
  unfold Router.lookup
  rw [resolve_none_of_no_match router req.method (RawRoute.from_path req.path) h]
  rfl

/-- C9 witness: `DELETE /users/42` against a router with no bucket for that
method (the spec's concrete scenario 2). -/
theorem unmatched_request_yields_404_witness :
    Router.lookup (fun s => [s.length]) Router.new
        { method := .delete, path := "/users/42", contentLength := none,
          bodyRead := .ok [] } =
      .ok { status := 404, body := ["not found".length],
            contentType := some "application/json" } :=
  unmatched_request_yields_404 (fun s => [s.length]) Router.new
    { method := .delete, path := "/users/42", contentLength := none,
      bodyRead := .ok [] }
    (Or.inl rfl)

theorem error_response_ok {Msg : Type} (serialize : Msg → Except String Bytes)
    (msg : Msg) (code : Nat) (resp : Response)
    (h : error_response serialize msg code = .ok resp) :
    serialize msg = .ok resp.body ∧ resp.status = code ∧
      resp.contentType = some "application/json" := by
  unfold error_response at h
  rcases hser : serialize msg with es | bs
  all_goals rw [hser] at h
  · exact absurd h (by simp)
  · cases Except.ok.inj h
    simp [Response.new, Response.set_body]

theorem success_response_ok {Res : Type} (serialize : Res → Except String Bytes)
    (res : Res) (resp : Response)
    (h : success_response serialize res = .ok resp) :
    serialize res = .ok resp.body ∧ resp.status = 200 ∧
      resp.contentType = some "application/json" := by
  unfold success_response at h
  rcases hser : serialize res with es | bs
  all_goals rw [hser] at h
  · exact absurd h (by simp)
  · cases Except.ok.inj h
    simp [Response.new, Response.set_body]

theorem error_response_fault {Msg : Type} (serialize : Msg → Except String Bytes)
    (msg : Msg) (code : Nat) (e : String)
    (h : error_response serialize msg code = .error e) :
    serialize msg = .error e := by
  unfold error_response at h
  rcases hser : serialize msg with es | bs
  all_goals rw [hser] at h
  · rw [← Except.error.inj h]
  · exact absurd h (by simp)

theorem success_response_fault {Res : Type} (serialize : Res → Except String Bytes)
    (res : Res) (e : String)
    (h : success_response serialize res = .error e) :
    serialize res = .error e := by
  unfold success_response at h
  rcases hser : serialize res with es | bs
  all_goals rw [hser] at h
  · rw [← Except.error.inj h]
  · exact absurd h (by simp)

/-- C2: for every dispatched request that reaches response serialization
(i.e. the pipeline produced a response rather than a fault), exactly one
of the following holds: all steps succeeded and the response has status
200, JSON content type and body equal to the serialization of the
handler's returned value; or context extraction, body deserialization
(status 400, parser's message), or the handler produced an Error, and
the response's status is the Error's carried code with the serialized
message payload as its body. -/
theorem response_serialization_cases {Req Res Ctx Msg : Type}
    (from_parts : Request → Params → Except (Error Msg) Ctx)
    (f : Ctx → Req → Except (Error Msg) Res)
    (reqDefault : Req)
    (deserialize : Bytes → Except String Req)
    (serializeRes : Res → Except String Bytes)
    (serializeMsg : Msg → Except String Bytes)
    (serializeStr : String → Except String Bytes)
    (req : Request) (params : Params) (resp : Response)
    (hresp : Endpoint.new from_parts f reqDefault deserialize serializeRes
        serializeMsg serializeStr req params = .ok resp) :
    (∃ body context r res, req.bodyRead = .ok body ∧
        from_parts req params = .ok context ∧
        ((has_body req.contentLength = true ∧ deserialize body = .ok r) ∨
         (has_body req.contentLength = false ∧ r = reqDefault)) ∧
        f context r = .ok res ∧ serializeRes res = .ok resp.body ∧
        resp.status = 200 ∧ resp.contentType = some "application/json") ∨
    (∃ body e, req.bodyRead = .ok body ∧ from_parts req params = .error e ∧
        serializeMsg e.msg = .ok resp.body ∧ resp.status = e.code ∧
        resp.contentType = some "application/json") ∨
    (∃ body context perr, req.bodyRead = .ok body ∧
        from_parts req params = .ok context ∧
        has_body req.contentLength = true ∧ deserialize body = .error perr ∧
        serializeStr perr = .ok resp.body ∧ resp.status = 400 ∧
        resp.contentType = some "application/json") ∨
    (∃ body context r e, req.bodyRead = .ok body ∧
        from_parts req params = .ok context ∧
        ((has_body req.contentLength = true ∧ deserialize body = .ok r) ∨
         (has_body req.contentLength = false ∧ r = reqDefault)) ∧
        f context r = .error e ∧ serializeMsg e.msg = .ok resp.body ∧
        resp.status = e.code ∧ resp.contentType = some "application/json") := by
  simp only [Endpoint.new] at hresp
  cases hread : req.bodyRead with
  | error ioe =>
    rw [hread] at hresp
    exact absurd hresp (by simp)
  | ok body =>
    rw [hread] at hresp
    cases hctx : from_parts req params with
    | error e =>
      rw [hctx] at hresp
      have h := error_response_ok serializeMsg e.msg e.code resp hresp
      exact Or.inr (Or.inl ⟨body, e, rfl, rfl, h.1, h.2.1, h.2.2⟩)
    | ok context =>
      rw [hctx] at hresp
      dsimp only at hresp
      cases hb : has_body req.contentLength with
      | true =>
        rw [hb, if_pos rfl] at hresp
        cases hde : deserialize body with
        | error perr =>
          rw [hde] at hresp
          have h := error_response_ok serializeStr perr 400 resp hresp
          exact Or.inr (Or.inr (Or.inl
            ⟨body, context, perr, rfl, rfl, rfl, hde, h.1, h.2.1, h.2.2⟩))
        | ok r =>
          rw [hde] at hresp
          dsimp only at hresp
          cases hf : f context r with
          | error e =>
            rw [hf] at hresp
            have h := error_response_ok serializeMsg e.msg e.code resp hresp
            exact Or.inr (Or.inr (Or.inr
              ⟨body, context, r, e, rfl, rfl, Or.inl ⟨rfl, hde⟩, hf,
               h.1, h.2.1, h.2.2⟩))
          | ok res =>
            rw [hf] at hresp
            have h := success_response_ok serializeRes res resp hresp
            exact Or.inl
              ⟨body, context, r, res, rfl, rfl, Or.inl ⟨rfl, hde⟩, hf,
               h.1, h.2.1, h.2.2⟩
      | false =>
        rw [hb, if_neg (by decide)] at hresp
        cases hf : f context reqDefault with
        | error e =>
          rw [hf] at hresp
          have h := error_response_ok serializeMsg e.msg e.code resp hresp
          exact Or.inr (Or.inr (Or.inr
            ⟨body, context, reqDefault, e, rfl, rfl, Or.inr ⟨rfl, rfl⟩, hf,
             h.1, h.2.1, h.2.2⟩))
        | ok res =>
          rw [hf] at hresp
          have h := success_response_ok serializeRes res resp hresp
          exact Or.inl
            ⟨body, context, reqDefault, res, rfl, rfl, Or.inr ⟨rfl, rfl⟩, hf,
             h.1, h.2.1, h.2.2⟩

/-- C2 witness: a concrete succeeding dispatch (no body, handler echoes the
default `7`, serialized as `[7]`); the case analysis applies to the
produced 200 response. -/
theorem response_serialization_cases_witness :
    (∃ body context r res, exReqNoCl.bodyRead = .ok body ∧
        exCtxOk exReqNoCl Params.empty = .ok context ∧
        ((has_body exReqNoCl.contentLength = true ∧ exDeserFail body = .ok r) ∨
         (has_body exReqNoCl.contentLength = false ∧ r = 7)) ∧
        exHandlerEcho context r = .ok res ∧
        exSerNat res = .ok (Response.mk 200 [7] (some "application/json")).body ∧
        (Response.mk 200 [7] (some "application/json")).status = 200 ∧
        (Response.mk 200 [7] (some "application/json")).contentType =
          some "application/json") ∨
    (∃ body e, exReqNoCl.bodyRead = .ok body ∧
        exCtxOk exReqNoCl Params.empty = .error e ∧
        exSerStr e.msg = .ok (Response.mk 200 [7] (some "application/json")).body ∧
        (Response.mk 200 [7] (some "application/json")).status = e.code ∧
        (Response.mk 200 [7] (some "application/json")).contentType =
          some "application/json") ∨
    (∃ body context perr, exReqNoCl.bodyRead = .ok body ∧
        exCtxOk exReqNoCl Params.empty = .ok context ∧
        has_body exReqNoCl.contentLength = true ∧ exDeserFail body = .error perr ∧
        exSerStr perr = .ok (Response.mk 200 [7] (some "application/json")).body ∧
        (Response.mk 200 [7] (some "application/json")).status = 400 ∧
        (Response.mk 200 [7] (some "application/json")).contentType =
          some "application/json") ∨
    (∃ body context r e, exReqNoCl.bodyRead = .ok body ∧
        exCtxOk exReqNoCl Params.empty = .ok context ∧
        ((has_body exReqNoCl.contentLength = true ∧ exDeserFail body = .ok r) ∨
         (has_body exReqNoCl.contentLength = false ∧ r = 7)) ∧
        exHandlerEcho context r = .error e ∧
        exSerStr e.msg = .ok (Response.mk 200 [7] (some "application/json")).body ∧
        (Response.mk 200 [7] (some "application/json")).status = e.code ∧
        (Response.mk 200 [7] (some "application/json")).contentType =
          some "application/json") :=
  response_serialization_cases exCtxOk exHandlerEcho 7 exDeserFail exSerNat
    exSerStr exSerStr exReqNoCl Params.empty
    (Response.mk 200 [7] (some "application/json")) rfl

/-- C8 counterexample: a dispatched request whose body read succeeds, whose
context extraction, deserialization step and handler all succeed, but
whose result serialization fails: the pipeline output is the propagated
serialization fault (`serde_json::to_vec(&res)?` in `success_response`),
not a response with status 500 — refuting the claim that the only
faults escaping the pipeline are body-read I/O faults and that a
success-path serialization failure yields a 500 response. -/
theorem success_serialization_failure_faults :
    Endpoint.new exCtxOk exHandlerEcho 7 exDeserFail
        (fun _ => (Except.error "key must be a string" : Except String Bytes))
        exSerStr exSerStr exReqNoCl Params.empty =
      .error "key must be a string" ∧
    exReqNoCl.bodyRead = .ok [123] :=
  ⟨rfl, rfl⟩

/-- C8 (amended): the pipeline's output is a well-formed HTTP response,
never a thrown failure, except for (a) I/O faults while reading the
body and (b) serialization faults — of an error message payload, of the
parse-error text, or of a successful handler result — all of which
propagate to the caller as transport-level faults; in particular a
serialization failure on the success path propagates the encoder's error
rather than producing a 500 response. -/
theorem pipeline_fault_characterization {Req Res Ctx Msg : Type}
    (from_parts : Request → Params → Except (Error Msg) Ctx)
    (f : Ctx → Req → Except (Error Msg) Res)
    (reqDefault : Req)
    (deserialize : Bytes → Except String Req)
    (serializeRes : Res → Except String Bytes)
    (serializeMsg : Msg → Except String Bytes)
    (serializeStr : String → Except String Bytes)
    (req : Request) (params : Params) (e : String)
    (hfault : Endpoint.new from_parts f reqDefault deserialize serializeRes
        serializeMsg serializeStr req params = .error e) :
    req.bodyRead = .error e ∨
    (∃ body err, req.bodyRead = .ok body ∧
        from_parts req params = .error err ∧ serializeMsg err.msg = .error e) ∨
    (∃ body context perr, req.bodyRead = .ok body ∧
        from_parts req params = .ok context ∧
        has_body req.contentLength = true ∧ deserialize body = .error perr ∧
        serializeStr perr = .error e) ∨
    (∃ body context r err, req.bodyRead = .ok body ∧
        from_parts req params = .ok context ∧
        ((has_body req.contentLength = true ∧ deserialize body = .ok r) ∨
         (has_body req.contentLength = false ∧ r = reqDefault)) ∧
        f context r = .error err ∧ serializeMsg err.msg = .error e) ∨
    (∃ body context r res, req.bodyRead = .ok body ∧
        from_parts req params = .ok context ∧
        ((has_body req.contentLength = true ∧ deserialize body = .ok r) ∨
         (has_body req.contentLength = false ∧ r = reqDefault)) ∧
        f context r = .ok res ∧ serializeRes res = .error e) := by
  simp only [Endpoint.new] at hfault
  cases hread : req.bodyRead with
  | error ioe =>
    rw [hread] at hfault
    dsimp only at hfault
    exact Or.inl (congrArg Except.error (Except.error.inj hfault))
  | ok body =>
    rw [hread] at hfault
    cases hctx : from_parts req params with
    | error err =>
      rw [hctx] at hfault
      exact Or.inr (Or.inl ⟨body, err, rfl, rfl,
        error_response_fault serializeMsg err.msg err.code e hfault⟩)
    | ok context =>
      rw [hctx] at hfault
      dsimp only at hfault
      cases hb : has_body req.contentLength with
      | true =>
        rw [hb, if_pos rfl] at hfault
        cases hde : deserialize body with
        | error perr =>
          rw [hde] at hfault
          exact Or.inr (Or.inr (Or.inl ⟨body, context, perr, rfl, rfl, rfl,
            hde, error_response_fault serializeStr perr 400 e hfault⟩))
        | ok r =>
          rw [hde] at hfault
          dsimp only at hfault
          cases hf : f context r with
          | error err =>
            rw [hf] at hfault
            exact Or.inr (Or.inr (Or.inr (Or.inl
              ⟨body, context, r, err, rfl, rfl, Or.inl ⟨rfl, hde⟩, hf,
               error_response_fault serializeMsg err.msg err.code e hfault⟩)))
          | ok res =>
            rw [hf] at hfault
            exact Or.inr (Or.inr (Or.inr (Or.inr
              ⟨body, context, r, res, rfl, rfl, Or.inl ⟨rfl, hde⟩, hf,
               success_response_fault serializeRes res e hfault⟩)))
      | false =>
        rw [hb, if_neg (by decide)] at hfault
        cases hf : f context reqDefault with
        | error err =>
          rw [hf] at hfault
          exact Or.inr (Or.inr (Or.inr (Or.inl
            ⟨body, context, reqDefault, err, rfl, rfl, Or.inr ⟨rfl, rfl⟩, hf,
             error_response_fault serializeMsg err.msg err.code e hfault⟩)))
        | ok res =>
          rw [hf] at hfault
          exact Or.inr (Or.inr (Or.inr (Or.inr
            ⟨body, context, reqDefault, res, rfl, rfl, Or.inr ⟨rfl, rfl⟩, hf,
             success_response_fault serializeRes res e hfault⟩)))

/-- C8 (amended) witness: the fault characterization applied to the
concrete success-path serialization failure. -/
theorem pipeline_fault_characterization_witness :
    exReqNoCl.bodyRead = .error "key must be a string" ∨
    (∃ body err, exReqNoCl.bodyRead = .ok body ∧
        exCtxOk exReqNoCl Params.empty = .error err ∧
        exSerStr err.msg = .error "key must be a string") ∨
    (∃ body context perr, exReqNoCl.bodyRead = .ok body ∧
        exCtxOk exReqNoCl Params.empty = .ok context ∧
        has_body exReqNoCl.contentLength = true ∧
        exDeserFail body = .error perr ∧
        exSerStr perr = .error "key must be a string") ∨
    (∃ body context r err, exReqNoCl.bodyRead = .ok body ∧
        exCtxOk exReqNoCl Params.empty = .ok context ∧
        ((has_body exReqNoCl.contentLength = true ∧ exDeserFail body = .ok r) ∨
         (has_body exReqNoCl.contentLength = false ∧ r = 7)) ∧
        exHandlerEcho context r = .error err ∧
        exSerStr err.msg = .error "key must be a string") ∨
    (∃ body context r res, exReqNoCl.bodyRead = .ok body ∧
        exCtxOk exReqNoCl Params.empty = .ok context ∧
        ((has_body exReqNoCl.contentLength = true ∧ exDeserFail body = .ok r) ∨
         (has_body exReqNoCl.contentLength = false ∧ r = 7)) ∧
        exHandlerEcho context r = .ok res ∧
        (fun _ => (Except.error "key must be a string" : Except String Bytes)) res =
          .error "key must be a string") :=
  pipeline_fault_characterization exCtxOk exHandlerEcho 7 exDeserFail
    (fun _ => (Except.error "key must be a string" : Except String Bytes))
    exSerStr exSerStr exReqNoCl Params.empty "key must be a string" rfl
